import Mathlib

/-!
# Verification of the Tock userspace adaptation layer (`src/apps/libs/firestorm.c`)

This file gives a shallow embedding of the driver facades in
`src/apps/libs/firestorm.c` and proves the specification claims about them.

The kernel syscall layer (`allow`, `subscribe`, `command`, `wait_for`, the
`CB_TYPE` tags) lives in `tock.h`/`tock.c`, which is not part of the source
tree here; it is modelled from the spec (section 6 of the spec gives the
signatures, section 4.3 the `wait_for` dispatch loop, sections 3 and 4.2 the
closed, distinguishable tag enumeration).

The embedding is an explicit-state trace semantics:
* a `Kernel` is an oracle giving the integer result of each primitive call;
* a `KState` carries the userspace heap (allocated addresses with contents),
  the callback subscription table, and the trace of observable events;
* each C function of `firestorm.c` becomes a Lean function threading `KState`;
* blocking calls additionally consume a list of kernel `Delivery`s, dispatched
  by the modelled `wait_for` loop.
-/

/-- Completion tags (`CB_TYPE`). Modelled from the spec: `tock.h` is not under
`src/`; per spec section 3 the tag is "a member of a closed, finite
enumeration" and per section 4.2 the tags used by the facades must be
distinguishable. Only the three tags used by `firestorm.c` are needed. -/
inductive Tag where
  | PUTSTR
  | DELAY
  | SPIBUF
  deriving DecidableEq

/-- The callback functions that can be registered through `subscribe`.  The
three named ones are the static callbacks defined in `firestorm.c`; `user t`
stands for an arbitrary caller-supplied callback that performs no local side
effect and yields tag `t`. -/
inductive Callback where
  | putstr_cb
  | delay_cb
  | spi_cb
  | user (t : Tag)
  deriving DecidableEq

/-- Observable events of a run: heap traffic, the three kernel primitives,
callback invocations, and entry into a blocking wait. -/
inductive Event where
  | mallocEv (addr len : Nat)
  | copyEv (addr : Nat) (bytes : List Nat)
  | allowEv (driver op addr len : Nat)
  | subscribeEv (driver op : Nat) (cb : Callback) (userdata : Nat)
  | commandEv (driver op : Nat) (arg : Int)
  | cbInvokeEv (cb : Callback) (a b c : Int) (userdata : Nat)
  | freeEv (addr : Nat)
  | waitEv (t : Tag)
  deriving DecidableEq

/-- Kernel oracle: the integer status each primitive call returns, as a
function of its arguments (spec section 6: negative values are error codes,
success returns a value that is at least 0). -/
structure Kernel where
  allowRet : Nat → Nat → Nat → Nat → Int
  subscribeRet : Nat → Nat → Int
  commandRet : Nat → Nat → Int → Int

/-- A pending kernel callback delivery: the (driver, event) pair it is
addressed to and the three kernel-supplied integer arguments. -/
structure Delivery where
  driver : Nat
  eventNum : Nat
  a : Int
  b : Int
  c : Int
  deriving DecidableEq

/-- Userspace-visible state: the heap (allocated address, contents) pairs, the
subscription table (driver, event, callback, userdata), the next fresh heap
address, the event trace, and a flag set when `free` is called on an address
that is not currently allocated (a double free / invalid free). -/
structure KState where
  heap : List (Nat × List Nat)
  subs : List (Nat × Nat × Callback × Nat)
  nextAddr : Nat
  trace : List Event
  doubleFree : Bool
  deriving DecidableEq

/-- Append one event to the trace. -/
def KState.record (s : KState) (e : Event) : KState :=
  { s with trace := s.trace ++ [e] }

/-- `malloc(len)`: returns a fresh address whose contents are `len`
indeterminate bytes (modelled as zeros). -/
def mallocC (len : Nat) (s : KState) : Nat × KState :=
  (s.nextAddr,
    { s with
      heap := s.heap ++ [(s.nextAddr, List.replicate len 0)]
      nextAddr := s.nextAddr + 1
      trace := s.trace ++ [Event.mallocEv s.nextAddr len] })

/-- `free(addr)`: removes the allocation; frees an address that is not
allocated set the `doubleFree` flag. -/
def freeC (addr : Nat) (s : KState) : KState :=
  { s with
    heap := s.heap.filter (fun p => p.1 != addr)
    doubleFree := s.doubleFree || s.heap.all (fun p => p.1 != addr)
    trace := s.trace ++ [Event.freeEv addr] }

/-- The byte sequence produced by `strncpy(buf, src, len)` into a buffer of
length `len`: at most `len` bytes of the source, padded with zero bytes when
the source is shorter. -/
def strncpyBytes (src : List Nat) (len : Nat) : List Nat :=
  src.take len ++ List.replicate (len - src.length) 0

/-- Overwrite the contents of allocation `addr` with `bytes`. -/
def copyC (addr : Nat) (bytes : List Nat) (s : KState) : KState :=
  { s with
    heap := s.heap.map (fun p => if p.1 = addr then (p.1, bytes) else p)
    trace := s.trace ++ [Event.copyEv addr bytes] }

/-- `allow(driver, op, addr, len)` (spec section 6): non-blocking, returns the
oracle status and records the grant. -/
def allowC (K : Kernel) (driver op addr len : Nat) (s : KState) : Int × KState :=
  (K.allowRet driver op addr len, s.record (Event.allowEv driver op addr len))

/-- `subscribe(driver, event, cb, userdata)` (spec sections 3 and 6): on
success installs the callback, replacing any previous registration for the
same (driver, event) pair; at most one registration per pair is active. -/
def subscribeC (K : Kernel) (driver op : Nat) (cb : Callback) (ud : Nat)
    (s : KState) : Int × KState :=
  let r := K.subscribeRet driver op
  let s1 := s.record (Event.subscribeEv driver op cb ud)
  if 0 ≤ r then
    (r, { s1 with
          subs := (s1.subs.filter (fun q => q.1 != driver || q.2.1 != op))
                    ++ [(driver, op, cb, ud)] })
  else (r, s1)

/-- `command(driver, op, arg)` (spec section 6): non-blocking trigger. -/
def commandC (K : Kernel) (driver op : Nat) (arg : Int) (s : KState) :
    Int × KState :=
  (K.commandRet driver op arg, s.record (Event.commandEv driver op arg))

/-- C conversion of an unsigned value to `int` (two's complement, 32 bits),
used where the source passes a `uint32_t` or `size_t` to the `int` argument
of `command`. -/
def toInt32 (n : Nat) : Int :=
  if n % 2 ^ 32 < 2 ^ 31 then ((n % 2 ^ 32 : Nat) : Int)
  else ((n % 2 ^ 32 : Nat) : Int) - 2 ^ 32

/-- Run one callback with the three kernel-supplied integers and its opaque
userdata.  `putstr_cb` (firestorm.c lines 7-14) frees its userdata and yields
`PUTSTR`; `delay_cb` (lines 44-46) yields `DELAY`; `spi_cb` (lines 62-67)
yields `SPIBUF`; a caller-supplied callback yields its own tag. -/
def runCallback (cb : Callback) (a b c : Int) (ud : Nat) (s : KState) :
    Tag × KState :=
  let s1 := s.record (Event.cbInvokeEv cb a b c ud)
  match cb with
  | Callback.putstr_cb => (Tag.PUTSTR, freeC ud s1)
  | Callback.delay_cb => (Tag.DELAY, s1)
  | Callback.spi_cb => (Tag.SPIBUF, s1)
  | Callback.user t => (t, s1)

/-- The tag a callback always yields. -/
def cbYield : Callback → Tag
  | Callback.putstr_cb => Tag.PUTSTR
  | Callback.delay_cb => Tag.DELAY
  | Callback.spi_cb => Tag.SPIBUF
  | Callback.user t => t

/-- Look up the active registration for a (driver, event) pair. -/
def lookupSub (subs : List (Nat × Nat × Callback × Nat)) (driver op : Nat) :
    Option (Callback × Nat) :=
  match subs.find? (fun q => q.1 == driver && q.2.1 == op) with
  | some q => some (q.2.2.1, q.2.2.2)
  | none => none

/-- The dispatch loop of the Blocking Wait Bridge (spec section 4.3): pop one
pending delivery, run its registered callback (a delivery with no registration
is dropped), stop when a callback execution yields exactly the awaited tag;
non-matching callbacks run to completion, their side effects kept.  Returns
whether the wait was satisfied before the deliveries ran out. -/
def waitLoop (tag : Tag) : List Delivery → KState → Bool × KState
  | [], s => (false, s)
  | d :: ds, s =>
    match lookupSub s.subs d.driver d.eventNum with
    | none => waitLoop tag ds s
    | some (cb, ud) =>
      let r := runCallback cb d.a d.b d.c ud s
      if r.1 = tag then (true, r.2) else waitLoop tag ds r.2

/-- `wait_for(tag)`. Modelled from the spec: `wait_for` is part of the
syscall layer not under `src/`; per spec sections 4.3 and 6 it suspends and
services deliveries until the awaited tag is produced. -/
def wait_for (tag : Tag) (ds : List Delivery) (s : KState) : Bool × KState :=
  waitLoop tag ds (s.record (Event.waitEv tag))

/-! ## The facades of `firestorm.c` -/

/-- `putnstr_async` (firestorm.c lines 23-26): grant the buffer to driver 0
operation 1, subscribe to driver 0 event 1; both statuses are discarded and
the function returns nothing. -/
def putnstr_async (K : Kernel) (str len : Nat) (cb : Callback) (userdata : Nat)
    (s : KState) : KState :=
  let s1 := (allowC K 0 1 str len s).2
  (subscribeC K 0 1 cb userdata s1).2

/-- `putnstr` (firestorm.c lines 16-21): allocate a private buffer, copy the
caller's bytes into it with `strncpy`, hand buffer and `putstr_cb` (with the
buffer as userdata) to `putnstr_async`, then `wait_for(PUTSTR)`.  The caller's
string is modelled by its byte contents. -/
def putnstr (K : Kernel) (str : List Nat) (len : Nat) (ds : List Delivery)
    (s : KState) : Bool × KState :=
  let m := mallocC len s
  let s1 := copyC m.1 (strncpyBytes str len) m.2
  let s2 := putnstr_async K m.1 len Callback.putstr_cb m.1 s1
  wait_for Tag.PUTSTR ds s2

/-- `putstr` (firestorm.c lines 28-30): `putnstr(str, strlen(str))`. -/
def putstr (K : Kernel) (str : List Nat) (ds : List Delivery) (s : KState) :
    Bool × KState :=
  putnstr K str str.length ds s

/-- `timer_subscribe` (firestorm.c lines 32-34): `subscribe(3, 0, cb, ud)`. -/
def timer_subscribe (K : Kernel) (cb : Callback) (ud : Nat) (s : KState) :
    Int × KState :=
  subscribeC K 3 0 cb ud s

/-- `timer_oneshot` (firestorm.c lines 36-38): `command(3, 0, (int)interval)`. -/
def timer_oneshot (K : Kernel) (interval : Nat) (s : KState) : Int × KState :=
  commandC K 3 0 (toInt32 interval) s

/-- `timer_start_repeating` (firestorm.c lines 40-42):
`command(3, 1, (int)interval)`. -/
def timer_start_repeating (K : Kernel) (interval : Nat) (s : KState) :
    Int × KState :=
  commandC K 3 1 (toInt32 interval) s

/-- `delay_ms` (firestorm.c lines 48-52): `timer_subscribe(delay_cb, NULL)`,
`timer_oneshot(ms)`, `wait_for(DELAY)`; both statuses are discarded. -/
def delay_ms (K : Kernel) (ms : Nat) (ds : List Delivery) (s : KState) :
    Bool × KState :=
  let s1 := (timer_subscribe K Callback.delay_cb 0 s).2
  let s2 := (timer_oneshot K ms s1).2
  wait_for Tag.DELAY ds s2

/-- `spi_write_byte` (firestorm.c lines 54-56): `command(4, 0, byte)` with an
`unsigned char` argument promoted to `int`. -/
def spi_write_byte (K : Kernel) (byte : Nat) (s : KState) : Int × KState :=
  commandC K 4 0 ((byte % 256 : Nat) : Int) s

/-- `spi_read_buf` (firestorm.c lines 58-60): `allow(4, 0, str, len)`. -/
def spi_read_buf (K : Kernel) (str len : Nat) (s : KState) : Int × KState :=
  allowC K 4 0 str len s

/-- `spi_write` (firestorm.c lines 69-82): `allow(4, 1, str, len)`; on a
negative status return it, otherwise `subscribe(4, 0, cb, NULL)`; on a
negative status return it, otherwise return `command(4, 1, len)`. -/
def spi_write (K : Kernel) (str len : Nat) (cb : Callback) (s : KState) :
    Int × KState :=
  let a := allowC K 4 1 str len s
  if a.1 < 0 then a
  else
    let b := subscribeC K 4 0 cb 0 a.2
    if b.1 < 0 then b
    else commandC K 4 1 (toInt32 len) b.2

/-- `spi_read_write` (firestorm.c lines 84-94): `allow(4, 0, read, len)`; on a
negative status return it, otherwise `spi_write(write, len, cb)`. -/
def spi_read_write (K : Kernel) (write read len : Nat) (cb : Callback)
    (s : KState) : Int × KState :=
  let a := allowC K 4 0 read len s
  if a.1 < 0 then a else spi_write K write len cb a.2

/-- `spi_block_write` (firestorm.c lines 96-100): delegates to
`spi_write(str, len, spi_cb)` and returns its status; the `wait_for(SPIBUF)`
in the source is commented out (and placed after the `return`), so no wait is
performed. -/
def spi_block_write (K : Kernel) (str len : Nat) (s : KState) : Int × KState :=
  spi_write K str len Callback.spi_cb s

/-- `nrf51822_serialization_subscribe` (firestorm.c lines 102-105):
`subscribe(5, 0, cb, NULL)`, status discarded, returns nothing. -/
def nrf51822_serialization_subscribe (K : Kernel) (cb : Callback) (s : KState) :
    KState :=
  (subscribeC K 5 0 cb 0 s).2

/-- `nrf51822_serialization_setup_rx_buffer` (firestorm.c lines 107-110):
`allow(5, 0, rx, rx_len)`, status discarded, returns nothing. -/
def nrf51822_serialization_setup_rx_buffer (K : Kernel) (rx rxLen : Nat)
    (s : KState) : KState :=
  (allowC K 5 0 rx rxLen s).2

/-- `nrf51822_serialization_write` (firestorm.c lines 112-118):
`allow(5, 1, tx, tx_len)` then unconditionally `command(5, 0, 0)`; both
statuses discarded, returns nothing. -/
def nrf51822_serialization_write (K : Kernel) (tx txLen : Nat) (s : KState) :
    KState :=
  let s1 := (allowC K 5 1 tx txLen s).2
  (commandC K 5 0 0 s1).2

/-- The state of a freshly started process: empty heap, no subscriptions,
empty trace. -/
def initState : KState :=
  { heap := [], subs := [], nextAddr := 0, trace := [], doubleFree := false }

/-- A kernel oracle that accepts every primitive call with status 0. -/
def K0 : Kernel :=
  { allowRet := fun _ _ _ _ => 0
    subscribeRet := fun _ _ => 0
    commandRet := fun _ _ _ => 0 }

/-- A kernel oracle that rejects every primitive call with status -1. -/
def Kneg : Kernel :=
  { allowRet := fun _ _ _ _ => -1
    subscribeRet := fun _ _ => -1
    commandRet := fun _ _ _ => -1 }

/-- Deliveries that complete a console print: one delivery addressed to the
console completion event (driver 0, event 1). -/
def ds0 : List Delivery := [⟨0, 1, 1, 2, 3⟩]

/-- Deliveries that fire the timer: one delivery addressed to the timer fired
event (driver 3, event 0). -/
def dsTimer : List Delivery := [⟨3, 0, 0, 0, 0⟩]

/-- A state holding one live heap allocation at address 0. -/
def sBuf : KState :=
  { heap := [(0, [104, 105])], subs := [], nextAddr := 1, trace := [],
    doubleFree := false }

/-- The driver identifiers of the syscall events in a trace. -/
def syscallDrivers (es : List Event) : List Nat :=
  es.filterMap (fun e =>
    match e with
    | Event.allowEv d _ _ _ => some d
    | Event.subscribeEv d _ _ _ => some d
    | Event.commandEv d _ _ => some d
    | _ => none)

/-- The events a run starting from `s` appended to the trace of `s`. -/
def extTrace (s s1 : KState) : List Event := s1.trace.drop s.trace.length

/-! ## Helper lemmas -/

lemma runCallback_fst (cb : Callback) (a b c : Int) (ud : Nat) (s : KState) :
    (runCallback cb a b c ud s).1 = cbYield cb := by
  cases cb <;> rfl

lemma waitLoop_nil_subs (tag : Tag) (ds : List Delivery) (s : KState)
    (h : s.subs = []) : waitLoop tag ds s = (false, s) := by
  induction ds with
  | nil => rfl
  | cons d ds ih =>
      simp only [waitLoop, lookupSub, h, List.find?]
      exact ih

lemma waitLoop_single (tag : Tag) (d0 e0 : Nat) (cb0 : Callback) (ud0 : Nat)
    (ds : List Delivery) (s : KState)
    (hsub : s.subs = [(d0, e0, cb0, ud0)]) (hy : cbYield cb0 = tag)
    (h : (waitLoop tag ds s).1 = true) :
    ∃ a b c : Int, (waitLoop tag ds s).2 = (runCallback cb0 a b c ud0 s).2 := by
  induction ds generalizing s with
  | nil => simp [waitLoop] at h
  | cons d ds ih =>
      by_cases hd : (d0 == d.driver && e0 == d.eventNum) = true
      · have hlook : lookupSub s.subs d.driver d.eventNum = some (cb0, ud0) := by
          simp only [lookupSub, hsub, List.find?, hd]
        have hfst : (runCallback cb0 d.a d.b d.c ud0 s).1 = tag := by
          rw [runCallback_fst, hy]
        simp only [waitLoop, hlook, hfst, if_pos rfl] at h ⊢
        exact ⟨d.a, d.b, d.c, rfl⟩
      · have hlook : lookupSub s.subs d.driver d.eventNum = none := by
          simp only [lookupSub, hsub, List.find?, hd]
        simp only [waitLoop, hlook] at h ⊢
        exact ih s hsub h

lemma wait_for_no_subs (tag : Tag) (ds : List Delivery) (s : KState)
    (h : s.subs = []) :
    wait_for tag ds s = (false, s.record (Event.waitEv tag)) := by
  unfold wait_for
  exact waitLoop_nil_subs tag ds _ h

lemma wait_for_single (tag : Tag) (d0 e0 : Nat) (cb0 : Callback) (ud0 : Nat)
    (ds : List Delivery) (s : KState)
    (hsub : s.subs = [(d0, e0, cb0, ud0)]) (hy : cbYield cb0 = tag)
    (h : (wait_for tag ds s).1 = true) :
    ∃ a b c : Int, (wait_for tag ds s).2 =
      (runCallback cb0 a b c ud0 (s.record (Event.waitEv tag))).2 := by
  unfold wait_for at h ⊢
  exact waitLoop_single tag d0 e0 cb0 ud0 ds _ hsub hy h

/-! ## Claim theorems -/

/-- C9: each blocking-path callback yields a fixed tag independent of the
three kernel-supplied integer arguments — `putstr_cb` always returns `PUTSTR`,
`delay_cb` always returns `DELAY`, `spi_cb` always returns `SPIBUF` — and the
three tags are pairwise distinct, so a blocking wait for one class of
operation cannot be satisfied by a callback of another class. -/
theorem callback_tags_fixed_and_distinct (a b c : Int) (ud : Nat) (s : KState) :
    (runCallback Callback.putstr_cb a b c ud s).1 = Tag.PUTSTR ∧
    (runCallback Callback.delay_cb a b c ud s).1 = Tag.DELAY ∧
    (runCallback Callback.spi_cb a b c ud s).1 = Tag.SPIBUF ∧
    Tag.PUTSTR ≠ Tag.DELAY ∧ Tag.PUTSTR ≠ Tag.SPIBUF ∧ Tag.DELAY ≠ Tag.SPIBUF :=
  ⟨rfl, rfl, rfl, by decide, by decide, by decide⟩

/-- C10: `nrf51822_serialization_write` always issues the transmit command
(driver 5, operation 0, argument 0) right after granting the TX buffer — for
every kernel oracle, in particular ones whose grant fails — and all three
serialization facades return only a state (no status value), discarding every
kernel status code. -/
theorem nrf51822_serialization_ignores_status (K : Kernel)
    (tx txLen rx rxLen : Nat) (cb : Callback) (s : KState) :
    (nrf51822_serialization_write K tx txLen s).trace =
      s.trace ++ [Event.allowEv 5 1 tx txLen, Event.commandEv 5 0 0] ∧
    (nrf51822_serialization_subscribe K cb s).trace =
      s.trace ++ [Event.subscribeEv 5 0 cb 0] ∧
    (nrf51822_serialization_setup_rx_buffer K rx rxLen s).trace =
      s.trace ++ [Event.allowEv 5 0 rx rxLen] := by
  refine ⟨?_, ?_, ?_⟩
  · simp [nrf51822_serialization_write, allowC, commandC, KState.record]
  · by_cases h : 0 ≤ K.subscribeRet 5 0 <;>
      simp [nrf51822_serialization_subscribe, subscribeC, KState.record, h]
  · simp [nrf51822_serialization_setup_rx_buffer, allowC, KState.record]

/-- C5: in `spi_read_write`, if the read-buffer grant returns a negative
value, the result is exactly that negative code and the only event issued is
the read-buffer `allow`: the write-buffer grant, the subscribe and the
transfer trigger are never issued. -/
theorem spi_read_write_short_circuit (K : Kernel) (write read len : Nat)
    (cb : Callback) (s : KState) (h : K.allowRet 4 0 read len < 0) :
    spi_read_write K write read len cb s =
      (K.allowRet 4 0 read len, s.record (Event.allowEv 4 0 read len)) := by
  simp [spi_read_write, allowC, h]

theorem spi_read_write_short_circuit_witness :
    Kneg.allowRet 4 0 2 4 < 0 ∧
    spi_read_write Kneg 1 2 4 Callback.spi_cb initState =
      (Kneg.allowRet 4 0 2 4, initState.record (Event.allowEv 4 0 2 4)) :=
  ⟨by decide,
   spi_read_write_short_circuit Kneg 1 2 4 Callback.spi_cb initState (by decide)⟩

/-- C8: the SPI facade uses operation number 0 for the read-buffer grant and
operation number 1 for the write-buffer grant and the transfer trigger:
`spi_read_buf` issues `allow` with operation 0, and `spi_write` issues `allow`
with operation 1 followed (when each prior step succeeds) by the subscribe and
then `command` with operation 1 carrying the transfer length. -/
theorem spi_operation_numbers (K : Kernel) (str len : Nat) (cb : Callback)
    (s : KState) (h1 : 0 ≤ K.allowRet 4 1 str len)
    (h2 : 0 ≤ K.subscribeRet 4 0) :
    (spi_read_buf K str len s).2.trace = s.trace ++ [Event.allowEv 4 0 str len] ∧
    (spi_read_buf K str len s).1 = K.allowRet 4 0 str len ∧
    (spi_write K str len cb s).2.trace =
      s.trace ++ [Event.allowEv 4 1 str len, Event.subscribeEv 4 0 cb 0,
                  Event.commandEv 4 1 (toInt32 len)] ∧
    (spi_write K str len cb s).1 = K.commandRet 4 1 (toInt32 len) := by
  have h1n : ¬ K.allowRet 4 1 str len < 0 := not_lt.mpr h1
  have h2n : ¬ K.subscribeRet 4 0 < 0 := not_lt.mpr h2
  refine ⟨?_, ?_, ?_, ?_⟩
  · simp [spi_read_buf, allowC, KState.record]
  · rfl
  · simp [spi_write, allowC, subscribeC, commandC, KState.record, h1n, h2, h2n]
  · simp [spi_write, allowC, subscribeC, commandC, KState.record, h1n, h2, h2n]

theorem spi_operation_numbers_witness :
    (0 : Int) ≤ K0.allowRet 4 1 1 2 ∧ (0 : Int) ≤ K0.subscribeRet 4 0 ∧
    ((spi_read_buf K0 1 2 initState).2.trace =
        initState.trace ++ [Event.allowEv 4 0 1 2] ∧
     (spi_read_buf K0 1 2 initState).1 = K0.allowRet 4 0 1 2 ∧
     (spi_write K0 1 2 Callback.spi_cb initState).2.trace =
        initState.trace ++ [Event.allowEv 4 1 1 2,
                            Event.subscribeEv 4 0 Callback.spi_cb 0,
                            Event.commandEv 4 1 (toInt32 2)] ∧
     (spi_write K0 1 2 Callback.spi_cb initState).1 =
        K0.commandRet 4 1 (toInt32 2)) :=
  ⟨by decide, by decide,
   spi_operation_numbers K0 1 2 Callback.spi_cb initState (by decide) (by decide)⟩

/-- C2 counterexample: at a concrete input the full run of `spi_block_write`
consists of the write-buffer grant, the subscribe and the transfer trigger
only — no wait on `SPIBUF` ever happens before it returns. -/
theorem spi_block_write_counterexample :
    (spi_block_write K0 1 4 initState).2.trace =
      [Event.allowEv 4 1 1 4, Event.subscribeEv 4 0 Callback.spi_cb 0,
       Event.commandEv 4 1 (toInt32 4)] ∧
    Event.waitEv Tag.SPIBUF ∉ (spi_block_write K0 1 4 initState).2.trace := by
  refine ⟨by decide, by decide⟩

/-- C2 amended: `spi_block_write` composes the write-buffer grant, subscribe
(with `spi_cb`) and transfer trigger by delegating to `spi_write`, and then
returns immediately without waiting on the `SPIBUF` tag — the
`wait_for(SPIBUF)` in the source is commented out (and unreachable after the
`return`). -/
theorem spi_block_write_no_wait (K : Kernel) (str len : Nat) (s : KState)
    (h : Event.waitEv Tag.SPIBUF ∉ s.trace) :
    spi_block_write K str len s = spi_write K str len Callback.spi_cb s ∧
    Event.waitEv Tag.SPIBUF ∉ (spi_block_write K str len s).2.trace := by
  refine ⟨rfl, ?_⟩
  by_cases ha : K.allowRet 4 1 str len < 0
  · simp [spi_block_write, spi_write, allowC, KState.record, ha, h]
  · by_cases hb : K.subscribeRet 4 0 < 0 <;>
      by_cases hc : 0 ≤ K.subscribeRet 4 0 <;>
        simp [spi_block_write, spi_write, allowC, subscribeC, commandC,
              KState.record, ha, hb, hc, h]

theorem spi_block_write_no_wait_witness :
    Event.waitEv Tag.SPIBUF ∉ initState.trace ∧
    (spi_block_write K0 1 4 initState = spi_write K0 1 4 Callback.spi_cb initState ∧
     Event.waitEv Tag.SPIBUF ∉ (spi_block_write K0 1 4 initState).2.trace) :=
  ⟨by decide, spi_block_write_no_wait K0 1 4 initState (by decide)⟩

/-- C3 counterexample: under a kernel oracle whose grant fails with -1, the
console facade `putnstr_async` still issues the subsequent subscribe and
returns only a state, no status code: the negative result of the primitive
`allow` neither aborts the remaining composition steps nor reaches the
caller. -/
theorem facade_swallows_failure_counterexample :
    Kneg.allowRet 0 1 9 2 = -1 ∧
    (putnstr_async Kneg 9 2 Callback.putstr_cb 9 initState).trace =
      [Event.allowEv 0 1 9 2, Event.subscribeEv 0 1 Callback.putstr_cb 9] := by
  refine ⟨by decide, by decide⟩

/-- C3 amended: only the SPI compositions propagate primitive failures —
`spi_write` aborts on a negative write-grant status and returns it unchanged
(and C5 proves the same for `spi_read_write`) — while the console print,
timer delay and serialization facades return no status at all and issue all
their remaining primitive calls regardless of the kernel oracle, so their
primitive failures are swallowed. -/
theorem facades_error_policy (K : Kernel) (str len ms tx txLen ud : Nat)
    (cb : Callback) (s : KState) (h : K.allowRet 4 1 str len < 0) :
    spi_write K str len cb s =
      (K.allowRet 4 1 str len, s.record (Event.allowEv 4 1 str len)) ∧
    (putnstr_async K str len cb ud s).trace =
      s.trace ++ [Event.allowEv 0 1 str len, Event.subscribeEv 0 1 cb ud] ∧
    (nrf51822_serialization_write K tx txLen s).trace =
      s.trace ++ [Event.allowEv 5 1 tx txLen, Event.commandEv 5 0 0] ∧
    (delay_ms K ms [] s).2.trace =
      s.trace ++ [Event.subscribeEv 3 0 Callback.delay_cb 0,
                  Event.commandEv 3 0 (toInt32 ms), Event.waitEv Tag.DELAY] := by
  refine ⟨?_, ?_, ?_, ?_⟩
  · simp [spi_write, allowC, h]
  · by_cases hs : 0 ≤ K.subscribeRet 0 1 <;>
      simp [putnstr_async, allowC, subscribeC, KState.record, hs]
  · simp [nrf51822_serialization_write, allowC, commandC, KState.record]
  · by_cases hs : 0 ≤ K.subscribeRet 3 0 <;>
      simp [delay_ms, timer_subscribe, timer_oneshot, subscribeC, commandC,
            wait_for, waitLoop, KState.record, hs]

theorem facades_error_policy_witness :
    Kneg.allowRet 4 1 1 2 < 0 ∧
    (spi_write Kneg 1 2 Callback.spi_cb initState =
      (Kneg.allowRet 4 1 1 2, initState.record (Event.allowEv 4 1 1 2)) ∧
     (putnstr_async Kneg 1 2 Callback.spi_cb 3 initState).trace =
      initState.trace ++ [Event.allowEv 0 1 1 2,
                          Event.subscribeEv 0 1 Callback.spi_cb 3] ∧
     (nrf51822_serialization_write Kneg 4 5 initState).trace =
      initState.trace ++ [Event.allowEv 5 1 4 5, Event.commandEv 5 0 0] ∧
     (delay_ms Kneg 6 [] initState).2.trace =
      initState.trace ++ [Event.subscribeEv 3 0 Callback.delay_cb 0,
                          Event.commandEv 3 0 (toInt32 6), Event.waitEv Tag.DELAY]) :=
  ⟨by decide, facades_error_policy Kneg 1 2 6 4 5 3 Callback.spi_cb initState (by decide)⟩

/-- C4 counterexample: the console facade addresses the kernel with driver
identifier 0, not 1 — the `allow` and `subscribe` issued by `putnstr_async`
both carry driver number 0. -/
theorem console_driver_number_counterexample :
    (putnstr_async K0 7 2 Callback.putstr_cb 7 initState).trace =
      [Event.allowEv 0 1 7 2, Event.subscribeEv 0 1 Callback.putstr_cb 7] ∧
    (putnstr_async K0 7 2 Callback.putstr_cb 7 initState).trace ≠
      [Event.allowEv 1 1 7 2, Event.subscribeEv 1 1 Callback.putstr_cb 7] := by
  refine ⟨by decide, by decide⟩

/-- C4 amended: the facades address the kernel drivers by the fixed driver
numbers console = 0, timer = 3, SPI = 4, serial co-processor = 5: every
`allow`/`subscribe`/`command` issued by the console facade carries driver
identifier 0, the timer facade 3, the SPI facade 4 and the serialization
facade 5, for every kernel oracle. -/
theorem facade_driver_numbers (K : Kernel) (p q ms ud byte : Nat)
    (cb : Callback) (s : KState) :
    syscallDrivers (extTrace s (putnstr_async K p q cb ud s)) = [0, 0] ∧
    syscallDrivers (extTrace s (timer_subscribe K cb ud s).2) = [3] ∧
    syscallDrivers (extTrace s (timer_oneshot K ms s).2) = [3] ∧
    syscallDrivers (extTrace s (timer_start_repeating K ms s).2) = [3] ∧
    syscallDrivers (extTrace s (spi_write_byte K byte s).2) = [4] ∧
    syscallDrivers (extTrace s (spi_read_buf K p q s).2) = [4] ∧
    (syscallDrivers (extTrace s (spi_write K p q cb s).2)).all
      (fun d => d == 4) = true ∧
    (syscallDrivers (extTrace s (spi_read_write K p q ms cb s).2)).all
      (fun d => d == 4) = true ∧
    syscallDrivers (extTrace s (nrf51822_serialization_subscribe K cb s)) = [5] ∧
    syscallDrivers
      (extTrace s (nrf51822_serialization_setup_rx_buffer K p q s)) = [5] ∧
    syscallDrivers (extTrace s (nrf51822_serialization_write K p q s)) = [5, 5] := by
  refine ⟨?_, ?_, ?_, ?_, ?_, ?_, ?_, ?_, ?_, ?_, ?_⟩
  · by_cases hs : 0 ≤ K.subscribeRet 0 1 <;>
      simp [putnstr_async, allowC, subscribeC, KState.record, extTrace,
            syscallDrivers, hs]
  · by_cases hs : 0 ≤ K.subscribeRet 3 0 <;>
      simp [timer_subscribe, subscribeC, KState.record, extTrace,
            syscallDrivers, hs]
  · simp [timer_oneshot, commandC, KState.record, extTrace, syscallDrivers]
  · simp [timer_start_repeating, commandC, KState.record, extTrace,
          syscallDrivers]
  · simp [spi_write_byte, commandC, KState.record, extTrace, syscallDrivers]
  · simp [spi_read_buf, allowC, KState.record, extTrace, syscallDrivers]
  · by_cases ha : K.allowRet 4 1 p q < 0 <;>
      by_cases hs : 0 ≤ K.subscribeRet 4 0 <;>
        by_cases hs2 : K.subscribeRet 4 0 < 0 <;>
          simp [spi_write, allowC, subscribeC, commandC, KState.record,
                extTrace, syscallDrivers, ha, hs, hs2]
  · by_cases hr : K.allowRet 4 0 q ms < 0
    · simp [spi_read_write, allowC, KState.record, extTrace, syscallDrivers, hr]
    · by_cases ha : K.allowRet 4 1 p ms < 0 <;>
        by_cases hs : 0 ≤ K.subscribeRet 4 0 <;>
          by_cases hs2 : K.subscribeRet 4 0 < 0 <;>
            simp [spi_read_write, spi_write, allowC, subscribeC, commandC,
                  KState.record, extTrace, syscallDrivers, hr, ha, hs, hs2]
  · by_cases hs : 0 ≤ K.subscribeRet 5 0 <;>
      simp [nrf51822_serialization_subscribe, subscribeC, KState.record,
            extTrace, syscallDrivers, hs]
  · simp [nrf51822_serialization_setup_rx_buffer, allowC, KState.record,
          extTrace, syscallDrivers]
  · simp [nrf51822_serialization_write, allowC, commandC, KState.record,
          extTrace, syscallDrivers]

/-- C6 counterexample: invoking `putstr_cb` twice on the same buffer performs
two frees — the trace records a `free` of address 0 on both invocations and
the second one trips the double-free flag, so the second invocation is not a
no-op. -/
theorem putstr_cb_double_free_counterexample :
    (runCallback Callback.putstr_cb 0 0 0 0
        (runCallback Callback.putstr_cb 0 0 0 0 sBuf).2).2.trace =
      [Event.cbInvokeEv Callback.putstr_cb 0 0 0 0, Event.freeEv 0,
       Event.cbInvokeEv Callback.putstr_cb 0 0 0 0, Event.freeEv 0] ∧
    (runCallback Callback.putstr_cb 0 0 0 0
        (runCallback Callback.putstr_cb 0 0 0 0 sBuf).2).2.doubleFree = true := by
  refine ⟨by decide, by decide⟩

/-- C6 amended: `putstr_cb` frees its buffer unconditionally on every
invocation, with no idempotence guard: a spurious duplicate invocation on the
same Owned Transfer Buffer performs a second `free` of the already released
address — a double free — rather than being a no-op. -/
theorem putstr_cb_unconditional_free (a b c a2 b2 c2 : Int) (buf : Nat)
    (bs : List Nat) (s : KState) (h : (buf, bs) ∈ s.heap) :
    (runCallback Callback.putstr_cb a b c buf s).2.doubleFree = s.doubleFree ∧
    (runCallback Callback.putstr_cb a2 b2 c2 buf
        (runCallback Callback.putstr_cb a b c buf s).2).2.trace =
      s.trace ++ [Event.cbInvokeEv Callback.putstr_cb a b c buf,
                  Event.freeEv buf,
                  Event.cbInvokeEv Callback.putstr_cb a2 b2 c2 buf,
                  Event.freeEv buf] ∧
    (runCallback Callback.putstr_cb a2 b2 c2 buf
        (runCallback Callback.putstr_cb a b c buf s).2).2.doubleFree = true := by
  have h1 : (s.heap.all (fun p => p.1 != buf)) = false := by
    rw [List.all_eq_false]
    exact ⟨(buf, bs), h, by simp⟩
  have h2 : ((s.heap.filter (fun p => p.1 != buf)).all
      (fun p => p.1 != buf)) = true := by
    rw [List.all_eq_true]
    intro p hp
    exact (List.mem_filter.mp hp).2
  refine ⟨?_, ?_, ?_⟩
  · simp [runCallback, freeC, KState.record, h1]
  · simp [runCallback, freeC, KState.record]
  · simp [runCallback, freeC, KState.record, h2]

theorem putstr_cb_unconditional_free_witness :
    ((0 : Nat), [104, 105]) ∈ sBuf.heap ∧
    ((runCallback Callback.putstr_cb 1 2 3 0 sBuf).2.doubleFree = sBuf.doubleFree ∧
     (runCallback Callback.putstr_cb 0 0 0 0
        (runCallback Callback.putstr_cb 1 2 3 0 sBuf).2).2.trace =
      sBuf.trace ++ [Event.cbInvokeEv Callback.putstr_cb 1 2 3 0,
                     Event.freeEv 0,
                     Event.cbInvokeEv Callback.putstr_cb 0 0 0 0,
                     Event.freeEv 0] ∧
     (runCallback Callback.putstr_cb 0 0 0 0
        (runCallback Callback.putstr_cb 1 2 3 0 sBuf).2).2.doubleFree = true) :=
  ⟨by decide, putstr_cb_unconditional_free 1 2 3 0 0 0 0 [104, 105] sBuf (by decide)⟩

/-- C1: whenever the blocking print `putnstr` returns, its whole run consists
of allocating a private heap buffer of the requested length, copying the
caller's bytes into it (with `strncpy` padding), granting it to the console
driver, subscribing `putstr_cb` with that buffer as userdata, entering the
wait on `PUTSTR`, and then — only once the completion callback `putstr_cb` has
executed — freeing that buffer inside the callback, exactly once (the final
heap is empty and the double-free flag is clear), after which `putnstr`
returns. -/
theorem putnstr_blocking_spec (K : Kernel) (str : List Nat) (len : Nat)
    (ds : List Delivery) (h : (putnstr K str len ds initState).1 = true) :
    ∃ a b c : Int,
      (putnstr K str len ds initState).2.trace =
        [Event.mallocEv 0 len, Event.copyEv 0 (strncpyBytes str len),
         Event.allowEv 0 1 0 len, Event.subscribeEv 0 1 Callback.putstr_cb 0,
         Event.waitEv Tag.PUTSTR, Event.cbInvokeEv Callback.putstr_cb a b c 0,
         Event.freeEv 0] ∧
      (putnstr K str len ds initState).2.heap = [] ∧
      (putnstr K str len ds initState).2.doubleFree = false := by
  by_cases hK : 0 ≤ K.subscribeRet 0 1
  · have hput : putnstr K str len ds initState =
        wait_for Tag.PUTSTR ds
          { heap := [(0, strncpyBytes str len)],
            subs := [(0, 1, Callback.putstr_cb, 0)], nextAddr := 1,
            trace := [Event.mallocEv 0 len,
                      Event.copyEv 0 (strncpyBytes str len),
                      Event.allowEv 0 1 0 len,
                      Event.subscribeEv 0 1 Callback.putstr_cb 0],
            doubleFree := false } := by
      simp [putnstr, mallocC, copyC, putnstr_async, allowC, subscribeC,
            KState.record, initState, hK]
    rw [hput] at h ⊢
    obtain ⟨a, b, c, hab⟩ :=
      wait_for_single Tag.PUTSTR 0 1 Callback.putstr_cb 0 ds _ rfl rfl h
    refine ⟨a, b, c, ?_, ?_, ?_⟩ <;>
      rw [hab] <;> simp [runCallback, freeC, KState.record]
  · exfalso
    have hput : putnstr K str len ds initState =
        wait_for Tag.PUTSTR ds
          { heap := [(0, strncpyBytes str len)], subs := [], nextAddr := 1,
            trace := [Event.mallocEv 0 len,
                      Event.copyEv 0 (strncpyBytes str len),
                      Event.allowEv 0 1 0 len,
                      Event.subscribeEv 0 1 Callback.putstr_cb 0],
            doubleFree := false } := by
      simp [putnstr, mallocC, copyC, putnstr_async, allowC, subscribeC,
            KState.record, initState, hK]
    rw [hput, wait_for_no_subs _ _ _ rfl] at h
    simp at h

theorem putnstr_blocking_spec_witness :
    (putnstr K0 [104, 105] 2 ds0 initState).1 = true ∧
    (∃ a b c : Int,
      (putnstr K0 [104, 105] 2 ds0 initState).2.trace =
        [Event.mallocEv 0 2, Event.copyEv 0 (strncpyBytes [104, 105] 2),
         Event.allowEv 0 1 0 2, Event.subscribeEv 0 1 Callback.putstr_cb 0,
         Event.waitEv Tag.PUTSTR, Event.cbInvokeEv Callback.putstr_cb a b c 0,
         Event.freeEv 0] ∧
      (putnstr K0 [104, 105] 2 ds0 initState).2.heap = [] ∧
      (putnstr K0 [104, 105] 2 ds0 initState).2.doubleFree = false) :=
  ⟨by decide, putnstr_blocking_spec K0 [104, 105] 2 ds0 (by decide)⟩

/-- C7: whenever the blocking delay `delay_ms` returns, its whole run is
exactly the composition subscribe-`delay_cb`-to-the-timer-fired-event (driver
3, event 0), trigger a one-shot timer with the given interval (command 3, 0),
and wait for the `DELAY` tag until `delay_cb` has run — and nothing else: the
trace contains no allocation, no grant, no copy and no free, and the heap is
untouched. -/
theorem delay_ms_blocking_spec (K : Kernel) (ms : Nat) (ds : List Delivery)
    (h : (delay_ms K ms ds initState).1 = true) :
    ∃ a b c : Int,
      (delay_ms K ms ds initState).2.trace =
        [Event.subscribeEv 3 0 Callback.delay_cb 0,
         Event.commandEv 3 0 (toInt32 ms), Event.waitEv Tag.DELAY,
         Event.cbInvokeEv Callback.delay_cb a b c 0] ∧
      (delay_ms K ms ds initState).2.heap = [] := by
  by_cases hK : 0 ≤ K.subscribeRet 3 0
  · have hdel : delay_ms K ms ds initState =
        wait_for Tag.DELAY ds
          { heap := [], subs := [(3, 0, Callback.delay_cb, 0)], nextAddr := 0,
            trace := [Event.subscribeEv 3 0 Callback.delay_cb 0,
                      Event.commandEv 3 0 (toInt32 ms)],
            doubleFree := false } := by
      simp [delay_ms, timer_subscribe, timer_oneshot, subscribeC, commandC,
            KState.record, initState, hK]
    rw [hdel] at h ⊢
    obtain ⟨a, b, c, hab⟩ :=
      wait_for_single Tag.DELAY 3 0 Callback.delay_cb 0 ds _ rfl rfl h
    refine ⟨a, b, c, ?_, ?_⟩ <;>
      rw [hab] <;> simp [runCallback, KState.record]
  · exfalso
    have hdel : delay_ms K ms ds initState =
        wait_for Tag.DELAY ds
          { heap := [], subs := [], nextAddr := 0,
            trace := [Event.subscribeEv 3 0 Callback.delay_cb 0,
                      Event.commandEv 3 0 (toInt32 ms)],
            doubleFree := false } := by
      simp [delay_ms, timer_subscribe, timer_oneshot, subscribeC, commandC,
            KState.record, initState, hK]
    rw [hdel, wait_for_no_subs _ _ _ rfl] at h
    simp at h

theorem delay_ms_blocking_spec_witness :
    (delay_ms K0 0 dsTimer initState).1 = true ∧
    (∃ a b c : Int,
      (delay_ms K0 0 dsTimer initState).2.trace =
        [Event.subscribeEv 3 0 Callback.delay_cb 0,
         Event.commandEv 3 0 (toInt32 0), Event.waitEv Tag.DELAY,
         Event.cbInvokeEv Callback.delay_cb a b c 0] ∧
      (delay_ms K0 0 dsTimer initState).2.heap = []) :=
  ⟨by decide, delay_ms_blocking_spec K0 0 dsTimer (by decide)⟩
